import Mathlib

/-!
Verification development for the AEO contract-generation API
(`api/generate-and-send.js`, current revision, together with the helper
validators of the Slack bridge endpoints).

The JavaScript sources are shallowly embedded: every external HTTP call
(SignNow, Stripe, ClickUp) is represented by an entry in an explicit call
trace, and the responses the remote services would return are supplied by
explicit "world" records, so the handler becomes a pure function
`Env → World → Request → Resp × List ExtCall`.
-/

namespace Aeo

/-! ## Models of the JavaScript primitives used by the handler.

Each of these is a model of a JS builtin restricted to the fragment the
handler exercises (ASCII strings, non-negative decimal-integer literals);
the restriction is noted on each definition. -/

/-- JS truthiness of an optional string value (`undefined` and `""` are falsy;
the handler's request-body fields are strings when present). -/
def truthy : Option String → Bool
  | none => false
  | some s => s ≠ ""

/-- Model of `String.prototype.trim` (whitespace at both ends removed;
ASCII fragment). -/
def jsTrim (s : String) : String :=
  String.mk (((s.data.dropWhile Char.isWhitespace).reverse.dropWhile Char.isWhitespace).reverse)

/-- Lower-case one ASCII character. -/
def asciiLower (c : Char) : Char :=
  if 65 ≤ c.toNat ∧ c.toNat ≤ 90 then Char.ofNat (c.toNat + 32) else c

/-- Model of `String.prototype.toLowerCase` on the ASCII fragment. -/
def jsLower (s : String) : String := String.mk (s.data.map asciiLower)

/-- Model of `String(x)` applied to an optional string
(`String(undefined) = "undefined"`). -/
def jsString : Option String → String
  | none => "undefined"
  | some s => s

/-- Model of the JS expression `a || b` for an optional string `a` and a
string default `b`. -/
def jsOr1 (a : Option String) (dflt : String) : String :=
  if truthy a then a.getD "" else dflt

/-- Model of the JS expression `a || b || c` over optional string operands with
a string default (first truthy operand, else the default). -/
def jsOr2 (a b : Option String) (dflt : String) : String :=
  if truthy a then a.getD "" else if truthy b then b.getD "" else dflt

/-- `String(body.amount).replace(/[,$]/g, "")` — strips every comma and
dollar sign. -/
def stripAmountPunct (s : String) : String :=
  String.mk (s.data.filter (fun c => !(c = ',' || c = '$')))

/-- Decimal value of a digit string. -/
def decVal (s : String) : Nat :=
  s.data.foldl (fun n c => n * 10 + (c.toNat - 48)) 0

/-- A non-empty all-digit string. -/
def isDigitString (s : String) : Bool :=
  s ≠ "" && s.data.all Char.isDigit

/-- Model of `Number(s)` on the non-negative-integer-literal fragment
(the only amounts the verified claims exercise); other inputs are outside
the modelled fragment and map to `none` (NaN). -/
def jsNumberNat : String → Option Nat :=
  fun s => if isDigitString s then some (decVal s) else none

/-- Walk a reversed digit list inserting a comma before every fourth, seventh,
… digit (structural helper for the en-US grouping). -/
def insertCommasRev : List Char → Nat → List Char
  | [], _ => []
  | c :: rest, k =>
    if k = 3 then ',' :: c :: insertCommasRev rest 1
    else c :: insertCommasRev rest (k + 1)

/-- Group a digit list (most-significant first) into en-US thousands groups. -/
def groupDigits (l : List Char) : List Char :=
  (insertCommasRev l.reverse 0).reverse

/-- The decimal digit character for `n < 10`. -/
def digitChar (n : Nat) : Char := Char.ofNat (48 + n)

/-- Decimal digits of a positive number, most-significant first (fuel-based
structural recursion; `fuel = n` always suffices). -/
def natToDigits : Nat → Nat → List Char
  | 0, _ => []
  | _ + 1, 0 => []
  | fuel + 1, n + 1 => natToDigits fuel ((n + 1) / 10) ++ [digitChar ((n + 1) % 10)]

/-- Decimal digit list of a natural number, most-significant first. -/
def natDecimalDigits (n : Nat) : List Char :=
  if n = 0 then [digitChar 0] else natToDigits n n

/-- `n.toLocaleString("en-US")` for a natural number: decimal digits with
comma thousands separators. -/
def groupThousands (n : Nat) : String :=
  String.mk (groupDigits (natDecimalDigits n))

/-- Model of `Number(s).toLocaleString("en-US")` on the
non-negative-integer-literal fragment (see `jsNumberNat`). -/
def jsToLocaleEnUS (s : String) : String :=
  match jsNumberNat s with
  | some n => groupThousands n
  | none => "NaN"

/-- Model of `Math.round(parseFloat(s) * 100)` on the integer-literal
fragment: `100 * n` for a digit string, `none` (NaN) otherwise. -/
def jsAmountCents (s : String) : Option Int :=
  (jsNumberNat s).map (fun n => (n : Int) * 100)

/-- Render an optional string the way JS string concatenation renders it
(`undefined` for a missing field). -/
def optStr (o : Option String) : String := o.getD "undefined"

/-- Render an optional integer the way JS renders `NaN`/numbers in
concatenation. -/
def optIntStr : Option Int → String
  | some n => toString n
  | none => "NaN"

/-- Uppercase hexadecimal digit. -/
def hexDigit (n : Nat) : Char :=
  if n < 10 then Char.ofNat (48 + n) else Char.ofNat (55 + n)

/-- Characters `encodeURIComponent` leaves unescaped. -/
def isUnreservedURI (c : Char) : Bool :=
  c.isAlphanum || c = '-' || c = '_' || c = '.' || c = '!' || c = '~' ||
    c = '*' || c = '(' || c = ')' || c = Char.ofNat 39

/-- Model of `encodeURIComponent` on the ASCII fragment: unreserved
characters kept, every other character percent-encoded. -/
def encodeURIComponent (s : String) : String :=
  String.mk (s.data.foldr
    (fun c acc =>
      if isUnreservedURI c then c :: acc
      else Char.ofNat 37 :: hexDigit (c.toNat / 16) :: hexDigit (c.toNat % 16) :: acc)
    [])

/-- English month name (1-based), used by the en-US long date format. -/
def monthName : Nat → String
  | 1 => "January" | 2 => "February" | 3 => "March" | 4 => "April"
  | 5 => "May" | 6 => "June" | 7 => "July" | 8 => "August"
  | 9 => "September" | 10 => "October" | 11 => "November" | 12 => "December"
  | _ => "Invalid"

/-- Split a character list on a separator character (model of
`String.splitOn` for a one-character separator). -/
def splitChar (sep : Char) : List Char → List (List Char)
  | [] => [[]]
  | c :: rest =>
    if c = sep then [] :: splitChar sep rest
    else
      match splitChar sep rest with
      | [] => [[c]]
      | g :: gs => (c :: g) :: gs

/-- Model of
`new Date(iso + "T12:00:00").toLocaleDateString("en-US", \x7byear, month: long, day\x7d)`
on well-formed `YYYY-MM-DD` inputs: `"Month D, YYYY"`. -/
def formatLongDate (iso : String) : String :=
  match (splitChar '-' iso.data).map String.mk with
  | [y, m, d] =>
    monthName ((jsNumberNat m).getD 0) ++ " " ++
      String.mk (natDecimalDigits ((jsNumberNat d).getD 0)) ++ ", " ++ y
  | _ => "Invalid Date"

/-! ## Document renderer (`generateContract` and its template builders).

The docx formatting attributes (fonts, sizes, colors, spacing, borders) are
compile-time constants in the source and are elided; the embedding keeps the
document structure — the paragraph sequence and the text/image content of
every run — which is what the renderer claims are about.  `Packer.toBuffer`
is the `docx` library's packing routine (an external dependency); it is
abstracted as an arbitrary packing function parameter. -/

/-- A byte buffer (logo / signature image bytes, packed document bytes). -/
abbrev Buf := List Nat

/-- One run inside a paragraph: a text run, an embedded image, a page-number
field, or an explicit page break. -/
inductive Run
  | text (s : String)
  | image (data : Buf)
  | pageNumber
  | pageBreak
deriving DecidableEq, Repr

/-- A paragraph, as the list of its runs (formatting elided). -/
abbrev Para := List Run

/-- The process-wide image assets (`LOGO_BLACK_BUFFER`, `LOGO_WHITE_BUFFER`,
`JEFF_SIG_BUFFER`), loaded once at start-up from bundled files or base64
environment values; `none` when absent. -/
structure Assets where
  logoBlack : Option Buf
  logoWhite : Option Buf
  jeffSig : Option Buf
deriving DecidableEq, Repr

/-- The normalized template data the handler hands to `generateContract`. -/
structure ContractData where
  contractType : String
  clientCompany : String
  clientFirst : String
  clientLast : String
  clientTitle : String
  formattedAmount : String
  formattedDate : String
  deliverable : String
  scope : String
deriving DecidableEq, Repr

/-- `sectionTitle(number, title)`. -/
def sectionTitle (number title : String) : Para :=
  [.text (number ++ ".  "), .text title]

/-- `bodyText(text)`. -/
def bodyText (t : String) : Para := [.text t]

/-- `boldBodyText(label, text)`. -/
def boldBodyText (label t : String) : Para := [.text label, .text t]

/-- `heading(text)`. -/
def heading (t : String) : Para := [.text t]

/-- `banner(text)`. -/
def banner (t : String) : Para := [.text t]

/-- `new Paragraph(\x7bchildren: [new PageBreak()]\x7d)`. -/
def pageBreakPara : Para := [.pageBreak]

/-- An empty spacer/border paragraph (`children: []`). -/
def emptyPara : Para := []

/-- `partiesIntro(clientCompany, formattedDate)`. -/
def partiesIntro (clientCompany formattedDate : String) : Para :=
  [.text "This Master Services Agreement and Statement of Work (collectively, this “Agreement”) is entered into as of ",
   .text formattedDate,
   .text " by and between ",
   .text "AEO Labs LLC",
   .text " (“Service Provider”) and ",
   .text clientCompany,
   .text " (“Client”)."]

/-- `titlePage(subtitle, clientCompany, clientFirst, clientLast, clientTitle,
formattedDate)`; the logo paragraph falls back to a text run when the black
logo asset is absent. -/
def titlePage (assets : Assets) (subtitle clientCompany clientFirst clientLast clientTitle formattedDate : String) : List Para :=
  [emptyPara,
   (match assets.logoBlack with
    | some buf => [Run.image buf]
    | none => [Run.text "AEO Labs"]),
   emptyPara,
   [.text "MASTER SERVICES AGREEMENT"],
   [.text "&"],
   [.text "STATEMENT OF WORK"],
   [.text subtitle],
   [.text formattedDate],
   emptyPara,
   [.text "Prepared for  ", .text clientCompany],
   [.text (clientFirst ++ " " ++ clientLast ++ ", " ++ clientTitle)]]

/-- `jeffSignaturePage(formattedDate)`: the provider's pre-filled signature
block, with the signature image included only when the asset is present. -/
def jeffSignaturePage (assets : Assets) (formattedDate : String) : List Para :=
  [pageBreakPara,
   [.text "SIGNATURES"],
   bodyText "IN WITNESS WHEREOF, the parties have executed this Agreement as of the date first written above.",
   emptyPara,
   [.text "SERVICE PROVIDER"],
   emptyPara] ++
  (match assets.jeffSig with
   | some buf => [[Run.image buf]]
   | none => []) ++
  [[.text " "],
   [.text "Signature"],
   [.text "Jeffrey Peroutka"],
   [.text "CEO"],
   [.text "AEO Labs LLC"],
   emptyPara,
   [.text formattedDate],
   [.text "Date"]]

/-- `clientSignaturePage(clientName, clientTitle, clientCompany)`: the blank
client signature block. -/
def clientSignaturePage (clientName clientTitle clientCompany : String) : List Para :=
  [pageBreakPara,
   emptyPara,
   [.text "CLIENT"],
   emptyPara,
   [.text "Name:  ", .text clientName],
   [.text "Title:  ", .text clientTitle],
   [.text "Company:  ", .text clientCompany],
   emptyPara,
   emptyPara,
   [.text " "],
   [.text "Signature"],
   emptyPara,
   [.text " "],
   [.text "Date"]]

/-- `buildSprint1(data)`: the Sprint 1 (one-time 60-day engagement) template. -/
def buildSprint1 (assets : Assets) (data : ContractData) : List Para :=
  let clientName := data.clientFirst ++ " " ++ data.clientLast
  titlePage assets "Sprint 1 — 60-Day Engagement" data.clientCompany data.clientFirst data.clientLast data.clientTitle data.formattedDate ++
  [pageBreakPara,
   partiesIntro data.clientCompany data.formattedDate,
   banner "MASTER SERVICES AGREEMENT",

   sectionTitle "1" "Services",
   bodyText ("AEO Labs LLC (“Service Provider”) agrees to provide Answer Engine Optimization services to " ++ data.clientCompany ++ " (“Client”) as described in the Statement of Work attached hereto. Services shall not commence until full payment has been received by Service Provider."),

   sectionTitle "2" "Term",
   bodyText ("This Agreement shall commence on " ++ data.formattedDate ++ " and shall continue for a period of sixty (60) calendar days (“Sprint Period”), unless terminated earlier in accordance with Section 9."),

   sectionTitle "3" "Payment Terms",
   bodyText ("Client shall pay Service Provider the total fee of $" ++ data.formattedAmount ++ " USD upon execution of this Agreement. Payment is due prior to commencement of services. If payment is not received within seven (7) days of the Agreement date, Service Provider reserves the right to suspend all services until payment is received. All fees are non-refundable once work has commenced. Late payments shall accrue interest at a rate of 1.5% per month."),

   sectionTitle "4" "Deliverable Acceptance",
   bodyText "Upon delivery of any work product, Client shall have four (4) business days to review and provide written objection. If no written objection is received within this period, deliverables shall be deemed accepted. This acceptance timeline is critical to maintaining the Sprint schedule.",

   sectionTitle "5" "Intellectual Property",
   bodyText "All work product created by Service Provider in the performance of this Agreement shall become the property of Client upon receipt of full payment. Until full payment is received, all intellectual property rights remain exclusively with Service Provider. Service Provider retains the right to use general knowledge, skills, and experience gained during the engagement, as well as any tools, frameworks, or methodologies that existed prior to or were developed independently of this Agreement.",

   sectionTitle "6" "Confidentiality",
   bodyText "Each party agrees to maintain the confidentiality of any proprietary or confidential information disclosed by the other party during the term of this Agreement. This obligation shall survive termination for a period of two (2) years. Confidential information does not include information that: (a) is or becomes publicly available through no fault of the receiving party; (b) was known to the receiving party prior to disclosure; (c) is independently developed by the receiving party; or (d) is disclosed with the prior written consent of the disclosing party.",

   sectionTitle "7" "Non-Solicitation",
   bodyText "During the term of this Agreement and for twelve (12) months following its termination, Client shall not directly or indirectly solicit, recruit, or hire any employee, contractor, or consultant of Service Provider who was involved in performing services under this Agreement.",

   sectionTitle "8" "Limitation of Liability",
   bodyText "In no event shall either party be liable to the other for any indirect, incidental, special, consequential, or punitive damages, regardless of the cause of action or the theory of liability. Service Provider’s total aggregate liability under this Agreement shall not exceed the total fees paid by Client under this Agreement.",

   sectionTitle "9" "Termination",
   bodyText "Either party may terminate this Agreement with thirty (30) days written notice. In the event of termination, Client shall pay for all services rendered through the date of termination. All fees paid prior to termination are non-refundable once work has commenced. Service Provider may terminate this Agreement immediately if Client fails to make payment within seven (7) days of the due date.",

   sectionTitle "10" "Indemnification",
   bodyText "Each party shall indemnify and hold harmless the other party from any third-party claims, damages, or expenses arising from the indemnifying party’s breach of this Agreement or negligent acts.",

   sectionTitle "11" "Force Majeure",
   bodyText "Neither party shall be liable for any failure or delay in performance under this Agreement due to circumstances beyond its reasonable control, including but not limited to acts of God, natural disasters, pandemic, government actions, war, terrorism, labor disputes, power failures, internet disruptions, or third-party service outages. The affected party shall provide prompt notice and use reasonable efforts to mitigate the impact.",

   sectionTitle "12" "Governing Law & Dispute Resolution",
   bodyText "This Agreement shall be governed by and construed in accordance with the laws of the State of Wyoming. Any disputes arising under this Agreement shall be resolved through binding arbitration in the State of Wyoming, in accordance with the rules of the American Arbitration Association. The prevailing party shall be entitled to recover reasonable attorneys’ fees and costs.",

   sectionTitle "13" "General Provisions",
   bodyText "This Agreement constitutes the entire agreement between the parties and supersedes all prior negotiations, representations, or agreements relating to the subject matter hereof. This Agreement may not be amended except by written instrument signed by both parties. If any provision of this Agreement is held to be unenforceable, the remaining provisions shall remain in full force and effect.",

   pageBreakPara,
   banner "STATEMENT OF WORK",

   heading "Project Overview",
   bodyText "Service Provider shall deliver a comprehensive Answer Engine Optimization sprint for Client, focused on improving Client’s visibility and performance across AI-powered answer engines and search platforms.",

   heading "Deliverable",
   bodyText (if data.deliverable ≠ "" then data.deliverable else "Comprehensive AEO audit, content strategy, and optimization implementation."),

   heading "Timeline",
   bodyText "All deliverables shall be completed within sixty (60) calendar days from the date of payment receipt.",

   heading "Investment",
   boldBodyText "Total Sprint Fee:  " ("$" ++ data.formattedAmount ++ " USD"),
   boldBodyText "Payment Terms:  " "Due upon execution, prior to commencement of services.",
   bodyText "All fees are non-refundable once work has commenced."] ++
  jeffSignaturePage assets data.formattedDate ++
  clientSignaturePage clientName data.clientTitle data.clientCompany

/-- `buildPhase2(data)`: the Phase 2 (ongoing monthly retainer) template. -/
def buildPhase2 (assets : Assets) (data : ContractData) : List Para :=
  let clientName := data.clientFirst ++ " " ++ data.clientLast
  titlePage assets "Phase 2 — Ongoing Monthly Retainer" data.clientCompany data.clientFirst data.clientLast data.clientTitle data.formattedDate ++
  [pageBreakPara,
   partiesIntro data.clientCompany data.formattedDate,
   banner "MASTER SERVICES AGREEMENT",

   sectionTitle "1" "Services",
   bodyText ("AEO Labs LLC (“Service Provider”) agrees to provide ongoing Answer Engine Optimization services to " ++ data.clientCompany ++ " (“Client”) as described in the Statement of Work attached hereto. Services shall not commence until initial payment has been received by Service Provider."),

   sectionTitle "2" "Term & Renewal",
   bodyText ("This Agreement shall commence on " ++ data.formattedDate ++ " and shall continue on a month-to-month basis, automatically renewing at the beginning of each billing period, unless terminated in accordance with Section 9. Each billing period begins on the first of the month following the commencement date."),

   sectionTitle "3" "Payment Terms",
   bodyText ("Client shall pay Service Provider a monthly retainer fee of $" ++ data.formattedAmount ++ " USD, due on the first of each month. The initial payment is due upon execution of this Agreement. If payment is not received within seven (7) days of the due date, Service Provider reserves the right to suspend all services until payment is received. Late payments shall accrue interest at a rate of 1.5% per month. Retainer fees may be adjusted by mutual written agreement between both parties."),

   sectionTitle "4" "Deliverable Acceptance",
   bodyText "Upon delivery of any work product, Client shall have four (4) business days to review and provide written objection. If no written objection is received within this period, deliverables shall be deemed accepted.",

   sectionTitle "5" "Intellectual Property",
   bodyText "All work product created by Service Provider in the performance of this Agreement shall become the property of Client upon receipt of full payment for the applicable billing period. Until full payment is received, all intellectual property rights remain exclusively with Service Provider. Service Provider retains the right to use general knowledge, skills, and experience gained during the engagement, as well as any tools, frameworks, or methodologies that existed prior to or were developed independently of this Agreement.",

   sectionTitle "6" "Confidentiality",
   bodyText "Each party agrees to maintain the confidentiality of any proprietary or confidential information disclosed by the other party during the term of this Agreement. This obligation shall survive termination for a period of two (2) years. Confidential information does not include information that: (a) is or becomes publicly available through no fault of the receiving party; (b) was known to the receiving party prior to disclosure; (c) is independently developed by the receiving party; or (d) is disclosed with the prior written consent of the disclosing party.",

   sectionTitle "7" "Non-Solicitation",
   bodyText "During the term of this Agreement and for twelve (12) months following its termination, Client shall not directly or indirectly solicit, recruit, or hire any employee, contractor, or consultant of Service Provider who was involved in performing services under this Agreement.",

   sectionTitle "8" "Limitation of Liability",
   bodyText "In no event shall either party be liable to the other for any indirect, incidental, special, consequential, or punitive damages, regardless of the cause of action or the theory of liability. Service Provider’s total aggregate liability under this Agreement shall not exceed the total fees paid by Client in the three (3) months preceding the claim.",

   sectionTitle "9" "Termination",
   bodyText "Either party may terminate this Agreement with thirty (30) days written notice, effective at the end of the current billing period. Failure to provide the required thirty (30) days written notice shall result in an early termination fee of $5,000 USD, payable immediately. Client shall pay for all services rendered through the effective date of termination. Service Provider may terminate this Agreement immediately if Client fails to make payment within seven (7) days of the due date.",

   sectionTitle "10" "Indemnification",
   bodyText "Each party shall indemnify and hold harmless the other party from any third-party claims, damages, or expenses arising from the indemnifying party’s breach of this Agreement or negligent acts.",

   sectionTitle "11" "Force Majeure",
   bodyText "Neither party shall be liable for any failure or delay in performance under this Agreement due to circumstances beyond its reasonable control, including but not limited to acts of God, natural disasters, pandemic, government actions, war, terrorism, labor disputes, power failures, internet disruptions, or third-party service outages. The affected party shall provide prompt notice and use reasonable efforts to mitigate the impact.",

   sectionTitle "12" "Reporting",
   bodyText "Service Provider shall deliver monthly performance reports to Client, summarizing work completed, key metrics, and recommendations for the upcoming period.",

   sectionTitle "13" "Governing Law & Dispute Resolution",
   bodyText "This Agreement shall be governed by and construed in accordance with the laws of the State of Wyoming. Any disputes arising under this Agreement shall be resolved through binding arbitration in the State of Wyoming, in accordance with the rules of the American Arbitration Association. The prevailing party shall be entitled to recover reasonable attorneys’ fees and costs.",

   sectionTitle "14" "General Provisions",
   bodyText "This Agreement constitutes the entire agreement between the parties and supersedes all prior negotiations, representations, or agreements relating to the subject matter hereof. This Agreement may not be amended except by written instrument signed by both parties. If any provision of this Agreement is held to be unenforceable, the remaining provisions shall remain in full force and effect.",

   pageBreakPara,
   banner "STATEMENT OF WORK",

   heading "Project Overview",
   bodyText "Service Provider shall deliver ongoing Answer Engine Optimization services for Client, including continuous strategy, optimization, and performance monitoring across AI-powered answer engines and search platforms.",

   heading "Scope of Services",
   bodyText (if data.scope ≠ "" then data.scope else "As mutually agreed upon by both parties."),

   heading "Reporting",
   bodyText "Monthly performance reports will be delivered summarizing work completed, key metrics, and strategic recommendations.",

   heading "Investment",
   boldBodyText "Monthly Retainer:  " ("$" ++ data.formattedAmount ++ " USD"),
   boldBodyText "Payment Due:  " "First of each month",
   boldBodyText "Initial Payment:  " "Due upon execution of this Agreement"] ++
  jeffSignaturePage assets data.formattedDate ++
  clientSignaturePage clientName data.clientTitle data.clientCompany

/-- The packed docx document structure: section header, footer and body
paragraphs. -/
structure DocStruct where
  header : List Para
  footer : List Para
  children : List Para
deriving DecidableEq, Repr

/-- The document structure `generateContract(data)` assembles before packing:
variant-selected body, header with logo (text fallback) plus accent line, and
the standard footer. -/
def contractDocStruct (assets : Assets) (data : ContractData) : DocStruct :=
  { header :=
      [(match assets.logoBlack with
        | some buf => [Run.image buf]
        | none => [Run.text "AEO Labs"]),
       emptyPara],
    footer :=
      [[.text "AEO Labs LLC  |  Confidential", .text "\tPage ", .pageNumber]],
    children :=
      if data.contractType = "phase2" then buildPhase2 assets data
      else buildSprint1 assets data }

/-- `generateContract(data)`: build the document structure and pack it to
bytes; `Packer.toBuffer` is the external `docx` dependency, abstracted as the
packing function `pack`. -/
def generateContract (pack : DocStruct → Buf) (assets : Assets) (data : ContractData) : Buf :=
  pack (contractDocStruct assets data)

/-! ## External-call traces.

Every outbound HTTP request the handler can make — and the in-process
document render — is recorded as an `ExtCall`; the remote services'
responses are supplied by explicit world records below, making each client
a pure function returning its result together with the calls it issued. -/

/-- One observable effect of a pipeline run: a document render, or an HTTP
request to SignNow, Stripe, or ClickUp (with the request path, and for
Stripe the form body, which carries the billing parameters). -/
inductive ExtCall
  | render
  | sn (method : String) (path : String)
  | stripe (method : String) (path : String) (form : String)
  | clickup (method : String) (path : String)
deriving DecidableEq, Repr

/-- Is this call a Stripe request? -/
def ExtCall.isStripe : ExtCall → Bool
  | .stripe _ _ _ => true
  | _ => false

/-- Is this call a ClickUp request? -/
def ExtCall.isClickup : ExtCall → Bool
  | .clickup _ _ => true
  | _ => false

/-! ## SignNow client (`snAuthenticate` … `snSendInvite`). -/

/-- A signer role as returned in the SignNow document metadata. -/
structure SnRole where
  name : String
  unique_id : String
deriving DecidableEq, Repr

/-- One entry of the embedded-invite response's `data` array. -/
structure SnInviteObj where
  id : Option String
deriving DecidableEq, Repr

/-- Responses of the signing-link sub-chain (role lookup, embedded invite,
link request). -/
structure LinkWorld where
  roles : List SnRole
  inviteStatus : Nat
  inviteData : Option (List SnInviteObj)
  linkStatus : Nat
  linkData : Option (Option String)
deriving DecidableEq, Repr

/-- `snCreateSigningLink(token, docId, signerEmail)`: resolve the Client
role, create an embedded invite, then request a 45-day signing link; any
missing piece throws.  Thrown messages keep the source's fixed prefix; the
appended `JSON.stringify` dump of the remote body is elided. -/
def snCreateSigningLink (lw : LinkWorld) (docId : String) (_signerEmail : String) :
    Except String String × List ExtCall :=
  let c0 := ExtCall.sn "GET" ("/document/" ++ docId)
  match lw.roles.find? (fun r => r.name == "Client") with
  | none => (.error "No \x27Client\x27 role found on document.", [c0])
  | some _clientRole =>
    let c1 := ExtCall.sn "POST" ("/v2/documents/" ++ docId ++ "/embedded-invites")
    match lw.inviteData with
    | none => (.error "Embedded invite creation failed", [c0, c1])
    | some invData =>
      if lw.inviteStatus ≥ 400 then (.error "Embedded invite creation failed", [c0, c1])
      else
        match invData.head? with
        | none => (.error "TypeError: cannot read property id of undefined", [c0, c1])
        | some fieldInvite =>
          match fieldInvite.id with
          | none => (.error "No invite ID in response", [c0, c1])
          | some fieldInviteId =>
            let c2 := ExtCall.sn "POST"
              ("/v2/documents/" ++ docId ++ "/embedded-invites/" ++ fieldInviteId ++ "/link")
            if lw.linkStatus ≥ 400 then (.error "Signing link generation failed", [c0, c1, c2])
            else
              match lw.linkData with
              | some (some link) => (.ok link, [c0, c1, c2])
              | _ => (.error "Signing link generation failed", [c0, c1, c2])

/-- `snSendInvite(token, docId, signerEmail, signerName)`: the provider
email invite; throws when the response carries `errors`. -/
def snSendInvite (hasErrors : Bool) (docId : String) : Except String Unit × List ExtCall :=
  let c := ExtCall.sn "POST" ("/document/" ++ docId ++ "/invite")
  if hasErrors then (.error "SignNow invite error", [c]) else (.ok (), [c])

/-- `DISABLE_SIGNNOW_INVITE` — hard-coded feature toggle (the email-invite
branch is dead code in the current source). -/
def DISABLE_SIGNNOW_INVITE : Bool := true

/-- The generic document-viewer URL used when the signing-link sub-chain
fails. -/
def fallbackLink (docId : String) : String :=
  "https://app.signnow.com/webapp/document/" ++ docId

/-! ## Stripe client (`createStripeInvoice`). -/

/-- A Stripe object of which only `id` is read. -/
structure StripeObj where
  id : Option String
deriving DecidableEq, Repr

/-- A Stripe subscription: `id` and `latest_invoice` are read. -/
structure StripeSub where
  id : Option String
  latest_invoice : Option String
deriving DecidableEq, Repr

/-- A Stripe invoice: the hosted URL and PDF link are read. -/
structure StripeInv where
  hosted_invoice_url : Option String
  invoice_pdf : Option String
deriving DecidableEq, Repr

/-- The outcomes of the individual `stripeRequest` calls
(`.error` = the request rejected: missing key, network error, or parse
error; `.ok` = the parsed response object). -/
structure StripeWorld where
  customer : Except String StripeObj
  price : Except String StripeObj
  subscription : Except String StripeSub
  latestInvoice : Except String StripeInv
  invoice : Except String StripeObj
  invoiceItem : Except String StripeObj
  finalized : Except String StripeInv
deriving Repr

/-- The structured result `createStripeInvoice` resolves with. -/
structure StripeResult where
  customerId : Option String
  subscriptionId : Option String := none
  invoiceId : Option String := none
  invoiceUrl : Option String := none
  invoicePdf : Option String := none
  recurring : Bool
deriving DecidableEq, Repr

/-- `createStripeInvoice(clientEmail, clientName, clientCompany, amountCents,
description, isRecurring)`: create-or-find the customer, then either the
recurring branch (monthly price → send-invoice subscription with 30-day due
window → fetch the subscription's latest invoice when present) or the
one-time branch (30-day send-invoice draft with bank-transfer payment,
single line item, finalize).  The recorded form strings are the exact
request bodies the source assembles. -/
def createStripeInvoice (sw : StripeWorld) (clientEmail clientName clientCompany : String)
    (amountCents : Option Int) (description : String) (isRecurring : Bool) :
    Except String StripeResult × List ExtCall :=
  let customerForm :=
    "email=" ++ encodeURIComponent clientEmail ++
    "&name=" ++ encodeURIComponent clientName ++
    "&metadata[company]=" ++ encodeURIComponent clientCompany ++
    "&invoice_settings[custom_fields][0][name]=" ++ encodeURIComponent "Company" ++
    "&invoice_settings[custom_fields][0][value]=" ++ encodeURIComponent clientCompany
  let c0 := ExtCall.stripe "POST" "/v1/customers" customerForm
  match sw.customer with
  | .error e => (.error e, [c0])
  | .ok customer =>
    if isRecurring then
      let priceForm :=
        "unit_amount=" ++ optIntStr amountCents ++
        "&currency=usd&recurring[interval]=month&product_data[name]=" ++
        encodeURIComponent description
      let c1 := ExtCall.stripe "POST" "/v1/prices" priceForm
      match sw.price with
      | .error e => (.error e, [c0, c1])
      | .ok price =>
        let subForm :=
          "customer=" ++ optStr customer.id ++
          "&items[0][price]=" ++ optStr price.id ++
          "&payment_behavior=default_incomplete" ++
          "&payment_settings[payment_method_types][0]=us_bank_account" ++
          "&collection_method=send_invoice&days_until_due=30"
        let c2 := ExtCall.stripe "POST" "/v1/subscriptions" subForm
        match sw.subscription with
        | .error e => (.error e, [c0, c1, c2])
        | .ok sub =>
          match sub.latest_invoice with
          | some latestInvoiceId =>
            let c3 := ExtCall.stripe "GET" ("/v1/invoices/" ++ latestInvoiceId) ""
            match sw.latestInvoice with
            | .error e => (.error e, [c0, c1, c2, c3])
            | .ok inv =>
              (.ok { customerId := customer.id, subscriptionId := sub.id,
                     invoiceId := some latestInvoiceId,
                     invoiceUrl := inv.hosted_invoice_url,
                     invoicePdf := inv.invoice_pdf, recurring := true },
               [c0, c1, c2, c3])
          | none =>
            (.ok { customerId := customer.id, subscriptionId := sub.id, recurring := true },
             [c0, c1, c2])
    else
      let invoiceForm :=
        "customer=" ++ optStr customer.id ++
        "&collection_method=send_invoice&days_until_due=30&auto_advance=true" ++
        "&payment_settings[payment_method_types][0]=us_bank_account"
      let c1 := ExtCall.stripe "POST" "/v1/invoices" invoiceForm
      match sw.invoice with
      | .error e => (.error e, [c0, c1])
      | .ok invoice =>
        let itemForm :=
          "customer=" ++ optStr customer.id ++
          "&invoice=" ++ optStr invoice.id ++
          "&amount=" ++ optIntStr amountCents ++
          "&currency=usd&description=" ++ encodeURIComponent description
        let c2 := ExtCall.stripe "POST" "/v1/invoiceitems" itemForm
        match sw.invoiceItem with
        | .error e => (.error e, [c0, c1, c2])
        | .ok _item =>
          let c3 := ExtCall.stripe "POST" ("/v1/invoices/" ++ optStr invoice.id ++ "/finalize") ""
          match sw.finalized with
          | .error e => (.error e, [c0, c1, c2, c3])
          | .ok finalized =>
            (.ok { customerId := customer.id, invoiceId := invoice.id,
                   invoiceUrl := finalized.hosted_invoice_url,
                   invoicePdf := finalized.invoice_pdf, recurring := false },
             [c0, c1, c2, c3])

/-! ## ClickUp client.

`createClickUpTask` is defined in the current `generate-and-send` source but
is never invoked by its handler (only an earlier revision called it); it is
embedded for completeness. -/

/-- Parsed ClickUp task-creation response. -/
structure ClickUpResp where
  id : Option String
  url : Option String
deriving DecidableEq, Repr

/-- `createClickUpTask(...)`: a single task-creation POST to the configured
list. -/
def createClickUpTask (resp : Except String ClickUpResp) (listId : String) :
    Except String ClickUpResp × List ExtCall :=
  (resp, [ExtCall.clickup "POST" ("/api/v2/list/" ++ listId ++ "/task")])

/-! ## The `generate-and-send` handler. -/

/-- The JSON request body (each field a string when present; `none` models an
absent field). -/
structure Body where
  contract_type : Option String
  client_company : Option String
  client_first : Option String
  client_last : Option String
  client_title : Option String
  client_email : Option String
  amount : Option String
  scope : Option String
  deliverable : Option String
  date : Option String
deriving DecidableEq, Repr

/-- The `required` field list, in the order the validation loop checks it. -/
def requiredFields : List String :=
  ["contract_type", "client_company", "client_first", "client_last",
   "client_title", "client_email", "amount"]

/-- `body[field]` for the required-field names. -/
def fieldVal (b : Body) : String → Option String
  | "contract_type" => b.contract_type
  | "client_company" => b.client_company
  | "client_first" => b.client_first
  | "client_last" => b.client_last
  | "client_title" => b.client_title
  | "client_email" => b.client_email
  | "amount" => b.amount
  | _ => none

/-- The validation loop: the first required field whose value is falsy, if
any. -/
def firstMissing (b : Body) : Option String :=
  requiredFields.find? (fun f => !truthy (fieldVal b f))

/-- `const rawType = String(body.contract_type || "").toLowerCase().trim();`
`const contractType = (rawType === "phase2" || rawType === "phase 2" || rawType === "p2") ? "phase2" : "sprint1";` -/
def normalizeContractType (ct : Option String) : String :=
  let rawType := jsTrim (jsLower (jsOr1 ct ""))
  if rawType == "phase2" || rawType == "phase 2" || rawType == "p2" then "phase2"
  else "sprint1"

/-- `isRecurring = contractType === "phase2"`. -/
def isRecurringFor (contractType : String) : Bool := contractType == "phase2"

/-- `company.replace(/[^a-zA-Z0-9]/g, "")` for the upload file name. -/
def alnumOnly (s : String) : String := String.mk (s.data.filter Char.isAlphanum)

/-- The invoice description chosen by the handler per contract type. -/
def invoiceDescOf (body : Body) (contractType : String) : String :=
  if contractType == "sprint1" then "AEO Labs - AI Visibility Sprint"
  else "AEO Labs - Phase 2 Retainer: " ++ jsOr2 body.scope body.deliverable "Monthly Retainer"

/-- `` `${body.client_first} ${body.client_last}` ``. -/
def clientNameOf (body : Body) : String :=
  jsString body.client_first ++ " " ++ jsString body.client_last

/-- The Stripe sub-result attached to the handler's success payload: either
the structured result or the caught error message. -/
inductive StripeField
  | result (r : StripeResult)
  | failed (error : String)
deriving DecidableEq, Repr

/-- The JSON payload of the handler's HTTP 200 success response. -/
structure SuccessPayload where
  message : String
  document_id : String
  signing_link : String
  contract_type : String
  client : String
  company : String
  amount : String
  stripe : StripeField
deriving DecidableEq, Repr

/-- The handler's possible HTTP responses. -/
inductive Resp
  | ok200Empty
  | methodNotAllowed
  | unauthorized
  | skipped (message : String)
  | success (payload : SuccessPayload)
  | failure (error : String)
deriving DecidableEq, Repr

/-- Is the response the 200 `skipped: true` validation short-circuit? -/
def Resp.isSkipped : Resp → Bool
  | .skipped _ => true
  | _ => false

/-- Is the response the 200 `success: true` payload? -/
def Resp.isSuccess : Resp → Bool
  | .success _ => true
  | _ => false

/-- Process environment: the optional inbound `API_KEY` and the current date
(`new Date().toISOString().split("T")[0]`, the only clock read on this
path). -/
structure Env where
  apiKey : Option String
  todayISO : String

/-- All remote-service responses a single pipeline run can consume. -/
structure World where
  authToken : Option String
  uploadId : Option String
  docPageCount : Option Nat
  docPages : Option Nat
  addFieldsErrors : Bool
  sendInviteErrors : Bool
  link : LinkWorld
  stripe : StripeWorld

/-- An incoming HTTP request. -/
structure Request where
  method : String
  authorization : Option String
  body : Body

/-- `if (apiKey && req.headers.authorization !== "Bearer " + apiKey)`. -/
def apiKeyRejects (apiKey : Option String) (authorization : Option String) : Bool :=
  match apiKey with
  | none => false
  | some k => k != "" && authorization != some ("Bearer " ++ k)

/-- `docInfo.page_count || (docInfo.pages ? docInfo.pages.length : 1)`. -/
def pageCountOf (pageCount pages : Option Nat) : Nat :=
  let fb := match pages with | some m => m | none => 1
  match pageCount with
  | some n => if n = 0 then fb else n
  | none => fb

/-- The handler's Stripe step with the arguments the source passes
(`body.client_email`, the client name, `body.client_company`, the rounded
cent amount, the per-type description, and the recurring flag). -/
def stripeStep (sw : StripeWorld) (body : Body) (contractType amount : String) :
    Except String StripeResult × List ExtCall :=
  createStripeInvoice sw (jsString body.client_email) (clientNameOf body)
    (jsString body.client_company) (jsAmountCents amount)
    (invoiceDescOf body contractType) (isRecurringFor contractType)

/-- The body of the handler's `try` block after validation has passed:
normalize, render, then the SignNow fatal chain, the non-fatal signing-link
step, and the caught Stripe step.  Thrown errors keep the source's fixed
message prefix (the `JSON.stringify` dump is elided). -/
def handlerValidated (pack : DocStruct → Buf) (assets : Assets) (todayISO : String)
    (w : World) (body : Body) : Resp × List ExtCall :=
  let contractType := normalizeContractType body.contract_type
  let amount := stripAmountPunct (jsString body.amount)
  let contractDate := jsOr1 body.date todayISO
  let formattedDate := formatLongDate contractDate
  let formattedAmount := jsToLocaleEnUS amount
  let data : ContractData :=
    { contractType := contractType,
      clientCompany := jsString body.client_company,
      clientFirst := jsString body.client_first,
      clientLast := jsString body.client_last,
      clientTitle := jsString body.client_title,
      formattedAmount := formattedAmount,
      formattedDate := formattedDate,
      deliverable := jsOr2 body.deliverable body.scope "",
      scope := jsOr2 body.scope body.deliverable "" }
  let clientName := clientNameOf body
  let _fileName := (if contractType == "phase2" then "Phase2" else "Sprint1") ++ "_" ++
    alnumOnly (jsString body.client_company) ++ "_MSA_SOW.docx"
  let _docxBuffer := generateContract pack assets data
  let trace0 := [ExtCall.render]
  let cAuth := ExtCall.sn "POST" "/oauth2/token"
  match w.authToken with
  | none => (.failure "SignNow auth failed", trace0 ++ [cAuth])
  | some _token =>
    let cUp := ExtCall.sn "POST" "/document"
    match w.uploadId with
    | none => (.failure "SignNow upload failed", trace0 ++ [cAuth, cUp])
    | some docId =>
      let cInfo := ExtCall.sn "GET" ("/document/" ++ docId)
      let _pageCount := pageCountOf w.docPageCount w.docPages
      let cFields := ExtCall.sn "PUT" ("/document/" ++ docId)
      if w.addFieldsErrors then
        (.failure "SignNow field error", trace0 ++ [cAuth, cUp, cInfo, cFields])
      else
        let linkStep := snCreateSigningLink w.link docId (jsString body.client_email)
        let signingLink :=
          match linkStep.1 with
          | .ok l => l
          | .error _ => fallbackLink docId
        let preTrace := trace0 ++ [cAuth, cUp, cInfo, cFields] ++ linkStep.2
        let inviteStep : Except String Unit × List ExtCall :=
          if DISABLE_SIGNNOW_INVITE then (.ok (), [])
          else snSendInvite w.sendInviteErrors docId
        match inviteStep.1 with
        | .error e => (.failure e, preTrace ++ inviteStep.2)
        | .ok _ =>
          let st := stripeStep w.stripe body contractType amount
          let stripeField :=
            match st.1 with
            | .ok r => StripeField.result r
            | .error m => StripeField.failed m
          let okStripe := match st.1 with | .ok _ => true | .error _ => false
          let msg := "Contract generated, uploaded to SignNow" ++
            (if okStripe then ", Stripe invoice created" else "")
          (.success
             { message := msg, document_id := docId, signing_link := signingLink,
               contract_type := contractType, client := clientName,
               company := jsString body.client_company, amount := formattedAmount,
               stripe := stripeField },
           preTrace ++ inviteStep.2 ++ st.2)

/-- The handler's `try` block: required-field validation, then the pipeline. -/
def handlerMain (pack : DocStruct → Buf) (assets : Assets) (todayISO : String)
    (w : World) (body : Body) : Resp × List ExtCall :=
  match firstMissing body with
  | some f => (.skipped ("Incomplete submission - missing field: " ++ f), [])
  | none => handlerValidated pack assets todayISO w body

/-- The exported request handler: CORS preflight, method check, optional
API-key check, then the pipeline. -/
def handler (pack : DocStruct → Buf) (assets : Assets) (env : Env) (w : World)
    (req : Request) : Resp × List ExtCall :=
  if req.method == "OPTIONS" then (.ok200Empty, [])
  else if req.method != "POST" then (.methodNotAllowed, [])
  else if apiKeyRejects env.apiKey req.authorization then (.unauthorized, [])
  else handlerMain pack assets env.todayISO w req.body

/-! ## Concrete fixtures used by the per-claim witnesses and
counterexamples. -/

/-- A complete, well-formed body used by several fixtures below (each claim
has its own copies of the fixtures it uses). -/
def c1Body : Body :=
  { contract_type := some "sprint1", client_company := some "Acme Corp",
    client_first := some "John", client_last := some "Doe",
    client_title := some "CEO", client_email := some "john@acme.com",
    amount := none, scope := none, deliverable := some "SEO audit",
    date := some "2025-06-01" }

/-- Environment fixture for the C1 witness. -/
def c1Env : Env := { apiKey := none, todayISO := "2025-06-01" }

/-- World fixture for the C1 witness (its contents are never consulted:
validation fails first). -/
def c1World : World :=
  { authToken := none, uploadId := none, docPageCount := none, docPages := none,
    addFieldsErrors := false, sendInviteErrors := false,
    link := { roles := [], inviteStatus := 200, inviteData := none,
              linkStatus := 200, linkData := none },
    stripe := { customer := .error "unused", price := .error "unused",
                subscription := .error "unused", latestInvoice := .error "unused",
                invoice := .error "unused", invoiceItem := .error "unused",
                finalized := .error "unused" } }

/-- Valid body fixture for the C2 witness. -/
def c2Body : Body :=
  { contract_type := some "sprint1", client_company := some "Acme Corp",
    client_first := some "John", client_last := some "Doe",
    client_title := some "CEO", client_email := some "john@acme.com",
    amount := some "5000", scope := none, deliverable := some "SEO audit",
    date := some "2025-06-01" }

/-- Environment fixture for the C2 witness. -/
def c2Env : Env := { apiKey := none, todayISO := "2025-06-01" }

/-- World fixture for the C2 witness: authentication succeeds, the upload
response has no document id. -/
def c2World : World :=
  { authToken := some "tok", uploadId := none, docPageCount := none, docPages := none,
    addFieldsErrors := false, sendInviteErrors := false,
    link := { roles := [], inviteStatus := 200, inviteData := none,
              linkStatus := 200, linkData := none },
    stripe := { customer := .error "unused", price := .error "unused",
                subscription := .error "unused", latestInvoice := .error "unused",
                invoice := .error "unused", invoiceItem := .error "unused",
                finalized := .error "unused" } }


/-- The success payload of a response, when it is one (used to state
concrete counterexample runs). -/
def Resp.payload? : Resp → Option SuccessPayload
  | .success p => some p
  | _ => none

/-- Valid body fixture for the C3 counterexample and witness. -/
def c3Body : Body :=
  { contract_type := some "sprint1", client_company := some "Acme Corp",
    client_first := some "John", client_last := some "Doe",
    client_title := some "CEO", client_email := some "john@acme.com",
    amount := some "5000", scope := none, deliverable := some "SEO audit",
    date := some "2025-06-01" }

/-- Environment fixture for C3. -/
def c3Env : Env := { apiKey := none, todayISO := "2025-06-01" }

/-- World fixture for C3: the whole SignNow chain (including the signing
link) succeeds and the Stripe customer call rejects, so the Stripe step
throws. -/
def c3World : World :=
  { authToken := some "tok", uploadId := some "doc123", docPageCount := some 9,
    docPages := none, addFieldsErrors := false, sendInviteErrors := false,
    link := { roles := [{ name := "Client", unique_id := "r1" }], inviteStatus := 200,
              inviteData := some [{ id := some "inv1" }], linkStatus := 200,
              linkData := some (some "https://sign.example/link") },
    stripe := { customer := .error "stripe boom", price := .error "unused",
                subscription := .error "unused", latestInvoice := .error "unused",
                invoice := .error "unused", invoiceItem := .error "unused",
                finalized := .error "unused" } }


/-- Valid body fixture for the C4 witness. -/
def c4Body : Body :=
  { contract_type := some "sprint1", client_company := some "Acme Corp",
    client_first := some "John", client_last := some "Doe",
    client_title := some "CEO", client_email := some "john@acme.com",
    amount := some "5000", scope := none, deliverable := some "SEO audit",
    date := some "2025-06-01" }

/-- Environment fixture for C4. -/
def c4Env : Env := { apiKey := none, todayISO := "2025-06-01" }

/-- World fixture for C4: the fatal chain succeeds, but the signing-link
sub-chain fails at its first step (no Client role in the document metadata);
Stripe succeeds. -/
def c4World : World :=
  { authToken := some "tok", uploadId := some "doc123", docPageCount := some 9,
    docPages := none, addFieldsErrors := false, sendInviteErrors := false,
    link := { roles := [], inviteStatus := 200, inviteData := none,
              linkStatus := 200, linkData := none },
    stripe := { customer := .ok { id := some "cus_1" }, price := .error "unused",
                subscription := .error "unused", latestInvoice := .error "unused",
                invoice := .ok { id := some "in_1" }, invoiceItem := .ok { id := some "ii_1" },
                finalized := .ok { hosted_invoice_url := some "https://stripe/fin",
                                   invoice_pdf := some "fpdf" } } }


/-- All-success Stripe world fixture for the C6 witness. -/
def c6World : StripeWorld :=
  { customer := .ok { id := some "cus_1" }, price := .ok { id := some "price_1" },
    subscription := .ok { id := some "sub_1", latest_invoice := some "in_1" },
    latestInvoice := .ok { hosted_invoice_url := some "https://stripe/inv",
                           invoice_pdf := some "pdf" },
    invoice := .ok { id := some "in_2" }, invoiceItem := .ok { id := some "ii_1" },
    finalized := .ok { hosted_invoice_url := some "https://stripe/fin",
                       invoice_pdf := some "fpdf" } }


/-- Assets fixture for the C7 witness. -/
def c7Assets : Assets := { logoBlack := none, logoWhite := none, jeffSig := none }

/-- Contract data fixture for the C7 witness, with the formatted amount
computed by the handler normalization from the raw input "$5,000". -/
def c7Data : ContractData :=
  { contractType := "sprint1", clientCompany := "Acme Corp", clientFirst := "John",
    clientLast := "Doe", clientTitle := "CEO",
    formattedAmount := jsToLocaleEnUS (stripAmountPunct "$5,000"),
    formattedDate := "June 1, 2025", deliverable := "SEO audit", scope := "SEO audit" }

/-- Body fixture for the C8 counterexample: a whitespace-only company name,
all other fields well-formed. -/
def c8Body : Body :=
  { contract_type := some "sprint1", client_company := some " ",
    client_first := some "John", client_last := some "Doe",
    client_title := some "CEO", client_email := some "john@acme.com",
    amount := some "5000", scope := none, deliverable := some "SEO audit",
    date := some "2025-06-01" }

/-- Environment fixture for C8. -/
def c8Env : Env := { apiKey := none, todayISO := "2025-06-01" }

/-- All-success world fixture for the C8 counterexample run. -/
def c8World : World :=
  { authToken := some "tok", uploadId := some "doc123", docPageCount := some 9,
    docPages := none, addFieldsErrors := false, sendInviteErrors := false,
    link := { roles := [{ name := "Client", unique_id := "r1" }], inviteStatus := 200,
              inviteData := some [{ id := some "inv1" }], linkStatus := 200,
              linkData := some (some "https://sign.example/link") },
    stripe := { customer := .ok { id := some "cus_1" }, price := .ok { id := some "price_1" },
                subscription := .ok { id := some "sub_1", latest_invoice := some "in_1" },
                latestInvoice := .ok { hosted_invoice_url := some "https://stripe/inv",
                                       invoice_pdf := some "pdf" },
                invoice := .ok { id := some "in_2" }, invoiceItem := .ok { id := some "ii_1" },
                finalized := .ok { hosted_invoice_url := some "https://stripe/fin",
                                   invoice_pdf := some "fpdf" } } }

/-- First data fixture for the C9 witness. -/
def c9Data1 : ContractData :=
  { contractType := "sprint1", clientCompany := "Acme Corp", clientFirst := "John",
    clientLast := "Doe", clientTitle := "CEO", formattedAmount := "5,000",
    formattedDate := "June 1, 2025", deliverable := "SEO audit", scope := "SEO audit" }

/-- Second data fixture for the C9 witness: field values written differently
but equal to those of the first. -/
def c9Data2 : ContractData :=
  { contractType := "sprint" ++ "1", clientCompany := "Acme " ++ "Corp",
    clientFirst := "John", clientLast := "Doe", clientTitle := "CEO",
    formattedAmount := "5," ++ "000", formattedDate := "June 1, 2025",
    deliverable := "SEO audit", scope := "SEO audit" }

/-- Environment fixture for the C10 counterexample: `API_KEY` is set to the
empty string. -/
def c10Env : Env := { apiKey := some "", todayISO := "2025-06-01" }

/-- Empty body fixture for the C10 counterexample. -/
def c10Body : Body :=
  { contract_type := none, client_company := none, client_first := none,
    client_last := none, client_title := none, client_email := none,
    amount := none, scope := none, deliverable := none, date := none }

/-- World fixture for the C10 counterexample (never consulted). -/
def c10World : World :=
  { authToken := none, uploadId := none, docPageCount := none, docPages := none,
    addFieldsErrors := false, sendInviteErrors := false,
    link := { roles := [], inviteStatus := 200, inviteData := none,
              linkStatus := 200, linkData := none },
    stripe := { customer := .error "unused", price := .error "unused",
                subscription := .error "unused", latestInvoice := .error "unused",
                invoice := .error "unused", invoiceItem := .error "unused",
                finalized := .error "unused" } }

/-! ## Helper lemmas. -/

/-- On an authorized POST request the handler runs its `try` block. -/
theorem handler_post (pack : DocStruct → Buf) (assets : Assets) (env : Env) (w : World)
    (auth : Option String) (b : Body) (hA : apiKeyRejects env.apiKey auth = false) :
    handler pack assets env w ⟨"POST", auth, b⟩ = handlerMain pack assets env.todayISO w b := by
  simp [handler, hA]

/-- Required-field validation passes exactly when every required field is
truthy. -/
theorem firstMissing_none_iff (b : Body) :
    firstMissing b = none ↔ ∀ f ∈ requiredFields, truthy (fieldVal b f) = true := by
  simp [firstMissing, List.find?_eq_none]

/-- The API-key guard fires exactly for a non-empty configured key and a
mismatched Authorization header. -/
theorem apiKeyRejects_iff (o a : Option String) :
    apiKeyRejects o a = true ↔ ∃ k, o = some k ∧ k ≠ "" ∧ a ≠ some ("Bearer " ++ k) := by
  cases o <;> simp [apiKeyRejects]

/-- After validation passes, the pipeline ends in `success` or `failure`:
never in a `skipped`, `unauthorized`, 405 or empty-200 response. -/
theorem handlerValidated_shape (pack : DocStruct → Buf) (assets : Assets) (t : String)
    (w : World) (b : Body) :
    ((handlerValidated pack assets t w b).1.isSkipped = false) ∧
    ((handlerValidated pack assets t w b).1 ≠ .unauthorized) := by
  unfold handlerValidated
  rcases w.authToken with _ | tok
  · simp [Resp.isSkipped]
  · rcases w.uploadId with _ | docId
    · simp [Resp.isSkipped]
    · by_cases hF : w.addFieldsErrors <;>
        simp [hF, DISABLE_SIGNNOW_INVITE, Resp.isSkipped]

/-- Every Stripe execution of the pipeline opens with the customer
create-or-find POST. -/
theorem createStripeInvoice_head (sw : StripeWorld) (em nm co : String)
    (cents : Option Int) (d : String) (r : Bool) :
    ∃ form rest, (createStripeInvoice sw em nm co cents d r).2 =
      ExtCall.stripe "POST" "/v1/customers" form :: rest := by
  unfold createStripeInvoice
  rcases sw.customer with e | cust
  · exact ⟨_, _, rfl⟩
  · try dsimp only
    cases r
    · try dsimp only
      rcases sw.invoice with e | inv
      · exact ⟨_, _, rfl⟩
      · try dsimp only
        rcases sw.invoiceItem with e | itm
        · exact ⟨_, _, rfl⟩
        · try dsimp only
          rcases sw.finalized with e | fin <;> exact ⟨_, _, rfl⟩
    · try dsimp only
      rcases sw.price with e | pr
      · exact ⟨_, _, rfl⟩
      · try dsimp only
        rcases sw.subscription with e | sub
        · exact ⟨_, _, rfl⟩
        · try dsimp only
          rcases sub.latest_invoice with _ | li
          · exact ⟨_, _, rfl⟩
          · try dsimp only
            rcases sw.latestInvoice with e | inv <;> exact ⟨_, _, rfl⟩

/-- The signing-link sub-chain only talks to SignNow: its trace never
contains a ClickUp call. -/
theorem snCreateSigningLink_no_clickup (lw : LinkWorld) (docId em : String) :
    ((snCreateSigningLink lw docId em).2.all (fun c => !c.isClickup)) = true := by
  unfold snCreateSigningLink
  repeat' first | rfl | split

/-- The Stripe step only talks to Stripe: its trace never contains a ClickUp
call. -/
theorem createStripeInvoice_no_clickup (sw : StripeWorld) (em nm co : String)
    (cents : Option Int) (d : String) (r : Bool) :
    ((createStripeInvoice sw em nm co cents d r).2.all (fun c => !c.isClickup)) = true := by
  unfold createStripeInvoice
  repeat' first | rfl | split

/-- After validation passes, the run is never answered with the `skipped`
short-circuit. -/
theorem handlerMain_skipped_iff (pack : DocStruct → Buf) (assets : Assets) (t : String)
    (w : World) (b : Body) :
    ((handlerMain pack assets t w b).1.isSkipped = false) ↔ firstMissing b = none := by
  unfold handlerMain
  rcases hm : firstMissing b with _ | f
  · simpa using (handlerValidated_shape pack assets t w b).1
  · simp [Resp.isSkipped]

/-- The `try` block never produces the 401 response. -/
theorem handlerMain_ne_unauthorized (pack : DocStruct → Buf) (assets : Assets) (t : String)
    (w : World) (b : Body) :
    (handlerMain pack assets t w b).1 ≠ .unauthorized := by
  unfold handlerMain
  rcases hm : firstMissing b with _ | f
  · simpa using (handlerValidated_shape pack assets t w b).2
  · simp


/-- The Stripe step's trace never contains a ClickUp call. -/
theorem stripeStep_no_clickup (sw : StripeWorld) (body : Body) (ct amt : String) :
    ((stripeStep sw body ct amt).2.all (fun c => !c.isClickup)) = true := by
  unfold stripeStep
  exact createStripeInvoice_no_clickup sw (jsString body.client_email) (clientNameOf body)
    (jsString body.client_company) (jsAmountCents amt) (invoiceDescOf body ct) (isRecurringFor ct)

/-- When the fatal SignNow chain succeeds (token, document id, field
placement), the validated pipeline always ends in the 200 success response
built from the signing-link and Stripe step outcomes, with the recorded
trace. -/
theorem handlerValidated_success (pack : DocStruct → Buf) (assets : Assets) (t : String)
    (w : World) (body : Body) (tok docId : String)
    (ht : w.authToken = some tok) (hu : w.uploadId = some docId)
    (hf : w.addFieldsErrors = false) :
    handlerValidated pack assets t w body =
      (.success
         { message := "Contract generated, uploaded to SignNow" ++
             (if (match (stripeStep w.stripe body (normalizeContractType body.contract_type)
                     (stripAmountPunct (jsString body.amount))).1 with
                  | .ok _ => true | .error _ => false)
              then ", Stripe invoice created" else ""),
           document_id := docId,
           signing_link :=
             (match (snCreateSigningLink w.link docId (jsString body.client_email)).1 with
              | .ok l => l | .error _ => fallbackLink docId),
           contract_type := normalizeContractType body.contract_type,
           client := clientNameOf body,
           company := jsString body.client_company,
           amount := jsToLocaleEnUS (stripAmountPunct (jsString body.amount)),
           stripe :=
             (match (stripeStep w.stripe body (normalizeContractType body.contract_type)
                 (stripAmountPunct (jsString body.amount))).1 with
              | .ok r => StripeField.result r | .error m => StripeField.failed m) },
       [ExtCall.render, ExtCall.sn "POST" "/oauth2/token", ExtCall.sn "POST" "/document",
        ExtCall.sn "GET" ("/document/" ++ docId), ExtCall.sn "PUT" ("/document/" ++ docId)] ++
         (snCreateSigningLink w.link docId (jsString body.client_email)).2 ++
         (stripeStep w.stripe body (normalizeContractType body.contract_type)
           (stripAmountPunct (jsString body.amount))).2) := by
  unfold handlerValidated
  rw [ht]
  try dsimp only
  rw [hu]
  try dsimp only
  rw [hf]
  try dsimp only
  simp [DISABLE_SIGNNOW_INVITE]

/-! ## Claim C1. -/

/-- Claim C1: for every POST submission to the JSON webhook endpoint (passing
the optional API-key check) in which any of the seven required fields is
absent or falsy, the handler returns HTTP 200 with skipped=true and a message
naming the missing field, and makes zero external calls — no document render
and no SignNow, Stripe, or ClickUp request (the call trace is empty). -/
theorem c1_missing_field_short_circuits (pack : DocStruct → Buf) (assets : Assets)
    (env : Env) (w : World) (auth : Option String) (body : Body)
    (hA : apiKeyRejects env.apiKey auth = false)
    (h : ∃ f ∈ requiredFields, truthy (fieldVal body f) = false) :
    ∃ f ∈ requiredFields, truthy (fieldVal body f) = false ∧
      handler pack assets env w ⟨"POST", auth, body⟩ =
        (.skipped ("Incomplete submission - missing field: " ++ f), []) := by
  have hfm : (firstMissing body).isSome := by
    rcases h with ⟨f, hmem, hf⟩
    rw [firstMissing, List.find?_isSome]
    exact ⟨f, hmem, by simp [hf]⟩
  rcases hsome : firstMissing body with _ | f
  · rw [hsome] at hfm; simp at hfm
  · have hfind : List.find? (fun g => !truthy (fieldVal body g)) requiredFields = some f := by
      simpa [firstMissing] using hsome
    have hp := List.find?_some hfind
    have hmem := List.mem_of_find?_eq_some hfind
    refine ⟨f, hmem, by simpa using hp, ?_⟩
    rw [handler_post _ _ _ _ _ _ hA]
    simp [handlerMain, hsome]

/-- Concrete run of C1: a submission with a falsy `amount` is skipped with
the corresponding message and an empty call trace. -/
theorem c1_witness :
    apiKeyRejects c1Env.apiKey none = false ∧
    (∃ f ∈ requiredFields, truthy (fieldVal c1Body f) = false) ∧
    ∃ f ∈ requiredFields, truthy (fieldVal c1Body f) = false ∧
      handler (fun _ => []) ⟨none, none, none⟩ c1Env c1World ⟨"POST", none, c1Body⟩ =
        (.skipped ("Incomplete submission - missing field: " ++ f), []) :=
  ⟨rfl, ⟨"amount", by decide, by decide⟩,
   c1_missing_field_short_circuits (fun _ => []) ⟨none, none, none⟩ c1Env c1World none c1Body
     rfl ⟨"amount", by decide, by decide⟩⟩

/-! ## Claim C2. -/

/-- Claim C2: if the SignNow upload step fails (no document identifier in
the upload response, so `snUpload` throws), the handler returns the failure
result (HTTP 500, success=false) and the call trace contains no Stripe call
and no ClickUp call. -/
theorem c2_upload_failure_aborts (pack : DocStruct → Buf) (assets : Assets)
    (env : Env) (w : World) (auth : Option String) (body : Body) (tok : String)
    (hA : apiKeyRejects env.apiKey auth = false)
    (hv : firstMissing body = none)
    (ht : w.authToken = some tok)
    (hu : w.uploadId = none) :
    handler pack assets env w ⟨"POST", auth, body⟩ =
      (.failure "SignNow upload failed",
        [ExtCall.render, ExtCall.sn "POST" "/oauth2/token", ExtCall.sn "POST" "/document"]) ∧
    ((handler pack assets env w ⟨"POST", auth, body⟩).2.all
      (fun c => !c.isStripe && !c.isClickup)) = true := by
  have heq : handler pack assets env w ⟨"POST", auth, body⟩ =
      (.failure "SignNow upload failed",
        [ExtCall.render, ExtCall.sn "POST" "/oauth2/token", ExtCall.sn "POST" "/document"]) := by
    rw [handler_post _ _ _ _ _ _ hA]
    unfold handlerMain
    rw [hv]
    try dsimp only
    unfold handlerValidated
    rw [ht]
    try dsimp only
    rw [hu]
    rfl
  exact ⟨heq, by rw [heq]; rfl⟩

/-- Concrete run of C2: a valid submission whose upload response has no id
yields the failure response and a trace without Stripe or ClickUp calls. -/
theorem c2_witness :
    c2World.authToken = some "tok" ∧ c2World.uploadId = none ∧
    firstMissing c2Body = none ∧
    handler (fun _ => []) ⟨none, none, none⟩ c2Env c2World ⟨"POST", none, c2Body⟩ =
      (.failure "SignNow upload failed",
        [ExtCall.render, ExtCall.sn "POST" "/oauth2/token", ExtCall.sn "POST" "/document"]) :=
  ⟨rfl, rfl, by decide,
   (c2_upload_failure_aborts (fun _ => []) ⟨none, none, none⟩ c2Env c2World none c2Body "tok"
     rfl (by decide) rfl rfl).1⟩

/-! ## Claim C3. -/

/-- Claim C3 counterexample: in the current handler, even when the whole
SignNow chain (including the signing link) succeeds and the Stripe step
throws, no ClickUp call is ever made — the run returns the success payload
with the Stripe error attached, and the trace contains no ClickUp request,
refuting "the ClickUp task-creation step is still attempted". -/
theorem c3_counterexample :
    ((handler (fun _ => []) ⟨none, none, none⟩ c3Env c3World
        ⟨"POST", none, c3Body⟩).1.payload?.map (fun p => p.stripe)) =
      some (.failed "stripe boom") ∧
    ((handler (fun _ => []) ⟨none, none, none⟩ c3Env c3World
        ⟨"POST", none, c3Body⟩).2.all (fun c => !c.isClickup)) = true ∧
    ((handler (fun _ => []) ⟨none, none, none⟩ c3Env c3World
        ⟨"POST", none, c3Body⟩).1.payload?.map (fun p => p.signing_link)) =
      some "https://sign.example/link" := by
  refine ⟨?_, ?_, ?_⟩ <;> rfl

/-- Claim C3 (amended): if the fatal SignNow chain succeeds and the Stripe
invoice step throws, the returned result is still the 200 success payload
carrying the document identifier and a signing link (the created link, or the
generic fallback URL), its stripe field is the error record carrying the
thrown message — and the current handler makes no ClickUp call (it has no
task-creation step; only an earlier revision attempted ClickUp). -/
theorem c3_stripe_failure_isolated (pack : DocStruct → Buf) (assets : Assets)
    (env : Env) (w : World) (auth : Option String) (body : Body)
    (tok docId m : String)
    (hA : apiKeyRejects env.apiKey auth = false)
    (hv : firstMissing body = none)
    (ht : w.authToken = some tok)
    (hu : w.uploadId = some docId)
    (hf : w.addFieldsErrors = false)
    (hs : (stripeStep w.stripe body (normalizeContractType body.contract_type)
            (stripAmountPunct (jsString body.amount))).1 = .error m) :
    ∃ p tr, handler pack assets env w ⟨"POST", auth, body⟩ = (.success p, tr) ∧
      p.document_id = docId ∧
      p.stripe = .failed m ∧
      ((∃ l, (snCreateSigningLink w.link docId (jsString body.client_email)).1 = .ok l ∧
          p.signing_link = l) ∨
        p.signing_link = fallbackLink docId) ∧
      tr.all (fun c => !c.isClickup) = true := by
  rw [handler_post _ _ _ _ _ _ hA]
  unfold handlerMain
  rw [hv]
  try dsimp only
  rw [handlerValidated_success pack assets env.todayISO w body tok docId ht hu hf]
  rw [hs]
  try dsimp only
  have hall : (([ExtCall.render, ExtCall.sn "POST" "/oauth2/token", ExtCall.sn "POST" "/document",
      ExtCall.sn "GET" ("/document/" ++ docId), ExtCall.sn "PUT" ("/document/" ++ docId)] ++
        (snCreateSigningLink w.link docId (jsString body.client_email)).2 ++
        (stripeStep w.stripe body (normalizeContractType body.contract_type)
          (stripAmountPunct (jsString body.amount))).2).all (fun c => !c.isClickup)) = true := by
    simp only [List.all_append, Bool.and_eq_true]
    exact ⟨⟨by rfl, snCreateSigningLink_no_clickup w.link docId (jsString body.client_email)⟩,
      stripeStep_no_clickup w.stripe body (normalizeContractType body.contract_type)
        (stripAmountPunct (jsString body.amount))⟩
  refine ⟨_, _, rfl, rfl, rfl, ?_, hall⟩
  rcases hl : (snCreateSigningLink w.link docId (jsString body.client_email)).1 with e | l
  · exact .inr rfl
  · exact .inl ⟨l, rfl, rfl⟩

/-- Concrete run of the amended C3: the fixture world with a failing Stripe
customer call yields the success payload with document id, created signing
link, the Stripe error record, and no ClickUp call. -/
theorem c3_witness :
    firstMissing c3Body = none ∧
    ∃ p tr, handler (fun _ => []) ⟨none, none, none⟩ c3Env c3World
        ⟨"POST", none, c3Body⟩ = (.success p, tr) ∧
      p.document_id = "doc123" ∧
      p.stripe = .failed "stripe boom" ∧
      ((∃ l, (snCreateSigningLink c3World.link "doc123" (jsString c3Body.client_email)).1 = .ok l ∧
          p.signing_link = l) ∨
        p.signing_link = fallbackLink "doc123") ∧
      tr.all (fun c => !c.isClickup) = true :=
  ⟨by decide,
   c3_stripe_failure_isolated (fun _ => []) ⟨none, none, none⟩ c3Env c3World none c3Body
     "tok" "doc123" "stripe boom" rfl (by decide) rfl rfl rfl rfl⟩

/-! ## Claim C4. -/

/-- Claim C4: if any step of the signing-link sub-chain throws after the
signature fields have been placed, the pipeline does not abort — the
response is still the 200 success payload, with the signing link fallen back
to the generic document-viewer URL built from the document id, and
processing continues to the invoice step (the Stripe customer call appears
in the trace). -/
theorem c4_link_failure_falls_back (pack : DocStruct → Buf) (assets : Assets)
    (env : Env) (w : World) (auth : Option String) (body : Body)
    (tok docId e : String)
    (hA : apiKeyRejects env.apiKey auth = false)
    (hv : firstMissing body = none)
    (ht : w.authToken = some tok)
    (hu : w.uploadId = some docId)
    (hf : w.addFieldsErrors = false)
    (hl : (snCreateSigningLink w.link docId (jsString body.client_email)).1 = .error e) :
    ∃ p tr, handler pack assets env w ⟨"POST", auth, body⟩ = (.success p, tr) ∧
      p.signing_link = fallbackLink docId ∧
      p.document_id = docId ∧
      ∃ form, ExtCall.stripe "POST" "/v1/customers" form ∈ tr := by
  rw [handler_post _ _ _ _ _ _ hA]
  unfold handlerMain
  rw [hv]
  try dsimp only
  rw [handlerValidated_success pack assets env.todayISO w body tok docId ht hu hf]
  rw [hl]
  try dsimp only
  obtain ⟨form, rest, hfr⟩ := createStripeInvoice_head w.stripe (jsString body.client_email)
    (clientNameOf body) (jsString body.client_company)
    (jsAmountCents (stripAmountPunct (jsString body.amount)))
    (invoiceDescOf body (normalizeContractType body.contract_type))
    (isRecurringFor (normalizeContractType body.contract_type))
  have hst : (stripeStep w.stripe body (normalizeContractType body.contract_type)
      (stripAmountPunct (jsString body.amount))).2 =
      ExtCall.stripe "POST" "/v1/customers" form :: rest := by
    unfold stripeStep
    exact hfr
  refine ⟨_, _, rfl, rfl, rfl, form, ?_⟩
  rw [List.mem_append]
  right
  rw [hst]
  exact List.mem_cons_self _ _

/-- Concrete run of C4: with an empty role list the link sub-chain throws,
the payload carries the fallback viewer URL, and the Stripe customer call is
still made. -/
theorem c4_witness :
    (snCreateSigningLink c4World.link "doc123" (jsString c4Body.client_email)).1 =
      .error "No \x27Client\x27 role found on document." ∧
    ∃ p tr, handler (fun _ => []) ⟨none, none, none⟩ c4Env c4World
        ⟨"POST", none, c4Body⟩ = (.success p, tr) ∧
      p.signing_link = fallbackLink "doc123" ∧
      p.document_id = "doc123" ∧
      ∃ form, ExtCall.stripe "POST" "/v1/customers" form ∈ tr :=
  ⟨rfl,
   c4_link_failure_falls_back (fun _ => []) ⟨none, none, none⟩ c4Env c4World none c4Body
     "tok" "doc123" "No \x27Client\x27 role found on document." rfl (by decide) rfl rfl rfl rfl⟩

/-! ## Claim C5. -/

/-- Claim C5 counterexample: the input "P2" (upper-case, not among the four
listed inputs) also normalizes to phase2 rather than to sprint1, because the
source lower-cases and trims before comparing — so "every other value maps
to sprint1" is false as stated. -/
theorem c5_counterexample :
    normalizeContractType (some "P2") = "phase2" ∧ ("phase2" : String) ≠ "sprint1" :=
  ⟨rfl, by decide⟩

/-- Claim C5 (amended): the four listed inputs all normalize to phase2, and
every input whose lower-cased, trimmed form is none of "phase2", "phase 2",
"p2" normalizes to sprint1 (the comparison is case-insensitive and
whitespace-trimmed, so e.g. "P2" also yields phase2). -/
theorem c5_normalization (s : Option String)
    (h2 : jsTrim (jsLower (jsOr1 s "")) ≠ "phase2")
    (h3 : jsTrim (jsLower (jsOr1 s "")) ≠ "phase 2")
    (h4 : jsTrim (jsLower (jsOr1 s "")) ≠ "p2") :
    normalizeContractType s = "sprint1" ∧
    normalizeContractType (some "phase2") = "phase2" ∧
    normalizeContractType (some "Phase 2") = "phase2" ∧
    normalizeContractType (some "phase 2") = "phase2" ∧
    normalizeContractType (some "p2") = "phase2" := by
  refine ⟨?_, rfl, rfl, rfl, rfl⟩
  have hcond : ((jsTrim (jsLower (jsOr1 s "")) == "phase2") ||
      (jsTrim (jsLower (jsOr1 s "")) == "phase 2") ||
      (jsTrim (jsLower (jsOr1 s "")) == "p2")) = false := by
    simp [h2, h3, h4]
  simp [normalizeContractType, hcond]

/-- Concrete run of the amended C5: "SPRINT 1" is outside the alias set and
normalizes to sprint1; "Phase 2" normalizes to phase2. -/
theorem c5_witness :
    normalizeContractType (some "SPRINT 1") = "sprint1" ∧
    normalizeContractType (some "Phase 2") = "phase2" :=
  ⟨(c5_normalization (some "SPRINT 1") (by decide) (by decide) (by decide)).1,
   (c5_normalization (some "SPRINT 1") (by decide) (by decide) (by decide)).2.2.1⟩

/-! ## Claim C6. -/

/-- Claim C6: the handler runs the recurring Stripe branch exactly when the
contract variant is phase2; the recurring branch creates a monthly-recurring
price for the amount, a subscription on that price with send-invoice
collection and a 30-day due window, then fetches the subscription's first
generated invoice for its public URL; every other variant gets a one-time
invoice with a 30-day due date and bank-transfer payment method, a single
line item for the full amount, and a finalize call that yields the public
URL. -/
theorem c6_stripe_branches :
    (∀ ct, isRecurringFor ct = true ↔ ct = "phase2") ∧
    (∀ (sw : StripeWorld) (em nm co : String) (cents : Option Int) (desc : String)
       (cust pr : StripeObj) (sub : StripeSub) (li : String) (inv : StripeInv),
      sw.customer = .ok cust → sw.price = .ok pr → sw.subscription = .ok sub →
      sub.latest_invoice = some li → sw.latestInvoice = .ok inv →
      createStripeInvoice sw em nm co cents desc true =
        (.ok { customerId := cust.id, subscriptionId := sub.id, invoiceId := some li,
               invoiceUrl := inv.hosted_invoice_url, invoicePdf := inv.invoice_pdf,
               recurring := true },
         [ExtCall.stripe "POST" "/v1/customers"
            ("email=" ++ encodeURIComponent em ++ "&name=" ++ encodeURIComponent nm ++
             "&metadata[company]=" ++ encodeURIComponent co ++
             "&invoice_settings[custom_fields][0][name]=" ++ encodeURIComponent "Company" ++
             "&invoice_settings[custom_fields][0][value]=" ++ encodeURIComponent co),
          ExtCall.stripe "POST" "/v1/prices"
            ("unit_amount=" ++ optIntStr cents ++
             "&currency=usd&recurring[interval]=month&product_data[name]=" ++
             encodeURIComponent desc),
          ExtCall.stripe "POST" "/v1/subscriptions"
            ("customer=" ++ optStr cust.id ++ "&items[0][price]=" ++ optStr pr.id ++
             "&payment_behavior=default_incomplete" ++
             "&payment_settings[payment_method_types][0]=us_bank_account" ++
             "&collection_method=send_invoice&days_until_due=30"),
          ExtCall.stripe "GET" ("/v1/invoices/" ++ li) ""])) ∧
    (∀ (sw : StripeWorld) (em nm co : String) (cents : Option Int) (desc : String)
       (cust invoice itm : StripeObj) (fin : StripeInv),
      sw.customer = .ok cust → sw.invoice = .ok invoice → sw.invoiceItem = .ok itm →
      sw.finalized = .ok fin →
      createStripeInvoice sw em nm co cents desc false =
        (.ok { customerId := cust.id, invoiceId := invoice.id,
               invoiceUrl := fin.hosted_invoice_url, invoicePdf := fin.invoice_pdf,
               recurring := false },
         [ExtCall.stripe "POST" "/v1/customers"
            ("email=" ++ encodeURIComponent em ++ "&name=" ++ encodeURIComponent nm ++
             "&metadata[company]=" ++ encodeURIComponent co ++
             "&invoice_settings[custom_fields][0][name]=" ++ encodeURIComponent "Company" ++
             "&invoice_settings[custom_fields][0][value]=" ++ encodeURIComponent co),
          ExtCall.stripe "POST" "/v1/invoices"
            ("customer=" ++ optStr cust.id ++
             "&collection_method=send_invoice&days_until_due=30&auto_advance=true" ++
             "&payment_settings[payment_method_types][0]=us_bank_account"),
          ExtCall.stripe "POST" "/v1/invoiceitems"
            ("customer=" ++ optStr cust.id ++ "&invoice=" ++ optStr invoice.id ++
             "&amount=" ++ optIntStr cents ++ "&currency=usd&description=" ++
             encodeURIComponent desc),
          ExtCall.stripe "POST" ("/v1/invoices/" ++ optStr invoice.id ++ "/finalize") ""])) := by
  refine ⟨?_, ?_, ?_⟩
  · intro ct
    simp [isRecurringFor]
  · intro sw em nm co cents desc cust pr sub li inv hc hp hs hli hinv
    unfold createStripeInvoice
    rw [hc]
    try dsimp only
    rw [hp]
    try dsimp only
    rw [hs]
    try dsimp only
    rw [hli]
    try dsimp only
    rw [hinv]
    rfl
  · intro sw em nm co cents desc cust invoice itm fin hc hi hit hfin
    unfold createStripeInvoice
    rw [hc]
    try dsimp only
    rw [hi]
    try dsimp only
    rw [hit]
    try dsimp only
    rw [hfin]
    rfl

/-- Concrete run of C6: the recurring flag is exactly phase2, and the
one-time branch on the all-success fixture world yields the finalized
invoice URL and the four recorded Stripe calls. -/
theorem c6_witness :
    (isRecurringFor "phase2" = true) ∧ (isRecurringFor "sprint1" = false) ∧
    createStripeInvoice c6World "john@acme.com" "John Doe" "Acme Corp"
        (some 500000) "AEO Labs - AI Visibility Sprint" false =
      (.ok { customerId := some "cus_1", invoiceId := some "in_2",
             invoiceUrl := some "https://stripe/fin", invoicePdf := some "fpdf",
             recurring := false },
       [ExtCall.stripe "POST" "/v1/customers"
          ("email=" ++ encodeURIComponent "john@acme.com" ++ "&name=" ++
           encodeURIComponent "John Doe" ++ "&metadata[company]=" ++
           encodeURIComponent "Acme Corp" ++
           "&invoice_settings[custom_fields][0][name]=" ++ encodeURIComponent "Company" ++
           "&invoice_settings[custom_fields][0][value]=" ++ encodeURIComponent "Acme Corp"),
        ExtCall.stripe "POST" "/v1/invoices"
          ("customer=cus_1&collection_method=send_invoice&days_until_due=30&auto_advance=true" ++
           "&payment_settings[payment_method_types][0]=us_bank_account"),
        ExtCall.stripe "POST" "/v1/invoiceitems"
          ("customer=cus_1&invoice=in_2&amount=500000&currency=usd&description=" ++
           encodeURIComponent "AEO Labs - AI Visibility Sprint"),
        ExtCall.stripe "POST" "/v1/invoices/in_2/finalize" ""]) :=
  ⟨rfl, rfl,
   c6_stripe_branches.2.2 c6World "john@acme.com" "John Doe" "Acme Corp"
     (some 500000) "AEO Labs - AI Visibility Sprint"
     { id := some "cus_1" } { id := some "in_2" } { id := some "ii_1" }
     { hosted_invoice_url := some "https://stripe/fin", invoice_pdf := some "fpdf" }
     rfl rfl rfl rfl⟩

/-! ## Claim C7. -/

/-- Claim C7: for every amount string whose punctuation-stripped form is a
digit string (e.g. "$5,000"), the handler's normalized numeric amount equals
that punctuation-free number, and the formatted amount substituted into the
rendered Sprint 1 contract's Investment line is its en-US grouped form. -/
theorem c7_amount_normalization (s : String)
    (h : isDigitString (stripAmountPunct s) = true)
    (assets : Assets) (data : ContractData)
    (hd : data.formattedAmount = jsToLocaleEnUS (stripAmountPunct s)) :
    jsNumberNat (stripAmountPunct s) = some (decVal (stripAmountPunct s)) ∧
    jsToLocaleEnUS (stripAmountPunct s) = groupThousands (decVal (stripAmountPunct s)) ∧
    boldBodyText "Total Sprint Fee:  "
        ("$" ++ groupThousands (decVal (stripAmountPunct s)) ++ " USD")
      ∈ buildSprint1 assets data := by
  have h1 : jsNumberNat (stripAmountPunct s) = some (decVal (stripAmountPunct s)) := by
    simp [jsNumberNat, h]
  have h2 : jsToLocaleEnUS (stripAmountPunct s) =
      groupThousands (decVal (stripAmountPunct s)) := by
    rw [jsToLocaleEnUS, h1]
  refine ⟨h1, h2, ?_⟩
  have h3 : boldBodyText "Total Sprint Fee:  " ("$" ++ data.formattedAmount ++ " USD")
      ∈ buildSprint1 assets data := by
    simp [buildSprint1]
  rwa [hd, h2] at h3

/-- Concrete run of C7 on "$5,000": stripped to "5000", numeric value 5000,
formatted "5,000", and the Investment line of the rendered Sprint 1 contract
reads "$5,000 USD". -/
theorem c7_witness :
    stripAmountPunct "$5,000" = "5000" ∧
    jsNumberNat (stripAmountPunct "$5,000") = some 5000 ∧
    jsToLocaleEnUS (stripAmountPunct "$5,000") = "5,000" ∧
    boldBodyText "Total Sprint Fee:  " "$5,000 USD" ∈ buildSprint1 c7Assets c7Data :=
  ⟨by decide, by decide, by decide,
   (c7_amount_normalization "$5,000" (by decide) c7Assets c7Data rfl).2.2⟩

/-! ## Claim C8. -/

/-- Claim C8 counterexample: the JSON-webhook validation accepts a
submission whose company name is a single space — the run completes with the
success response (it is not skipped) — yet the field is empty after
trimming, so acceptance does not imply the trimmed-non-empty invariant (nor,
by the same truthiness-only check, the email-shape or amount invariants). -/
theorem c8_counterexample :
    c8Body.client_company = some " " ∧
    jsTrim " " = "" ∧
    (handler (fun _ => []) ⟨none, none, none⟩ c8Env c8World
        ⟨"POST", none, c8Body⟩).1.isSuccess = true :=
  ⟨rfl, by decide, rfl⟩

/-- Claim C8 (amended): a submission is accepted by the JSON-webhook intake
validation (not answered with the skipped response) exactly when every
required field is present and truthy (a non-empty string); the stronger
ContractRequest invariants — non-empty after trimming, email shape, positive
amount — are not checked by this intake (they are only checked by the Slack
bridge validator). -/
theorem c8_accepted_iff_truthy (pack : DocStruct → Buf) (assets : Assets)
    (env : Env) (w : World) (auth : Option String) (body : Body)
    (hA : apiKeyRejects env.apiKey auth = false) :
    ((handler pack assets env w ⟨"POST", auth, body⟩).1.isSkipped = false ↔
      ∀ f ∈ requiredFields, truthy (fieldVal body f) = true) := by
  rw [handler_post _ _ _ _ _ _ hA, handlerMain_skipped_iff, firstMissing_none_iff]

/-- Concrete run of the amended C8: the whitespace-company body is accepted
and indeed every required field is truthy. -/
theorem c8_witness :
    ((handler (fun _ => []) ⟨none, none, none⟩ c8Env c8World
        ⟨"POST", none, c8Body⟩).1.isSkipped = false) ↔
      (∀ f ∈ requiredFields, truthy (fieldVal c8Body f) = true) :=
  c8_accepted_iff_truthy (fun _ => []) ⟨none, none, none⟩ c8Env c8World none c8Body rfl

/-! ## Claim C9. -/

/-- Claim C9: rendering is a pure function of the contract data and the
process-wide image assets — two renders with identical variant, field
values, formatted date and assets produce byte-identical buffers for any
packing function (the packer, the external docx dependency, receives exactly
the same document structure; its embedded current-timestamp fields are
outside the structure the repository builds). -/
theorem c9_render_deterministic (pack : DocStruct → Buf) (assets : Assets)
    (d1 d2 : ContractData)
    (h1 : d1.contractType = d2.contractType)
    (h2 : d1.clientCompany = d2.clientCompany)
    (h3 : d1.clientFirst = d2.clientFirst)
    (h4 : d1.clientLast = d2.clientLast)
    (h5 : d1.clientTitle = d2.clientTitle)
    (h6 : d1.formattedAmount = d2.formattedAmount)
    (h7 : d1.formattedDate = d2.formattedDate)
    (h8 : d1.deliverable = d2.deliverable)
    (h9 : d1.scope = d2.scope) :
    generateContract pack assets d1 = generateContract pack assets d2 := by
  have hd : d1 = d2 := by
    cases d1; cases d2; simp_all
  rw [hd]

/-- Concrete run of C9: two fieldwise-equal data records (written
differently) render to the same buffer. -/
theorem c9_witness :
    generateContract (fun d => [d.children.length]) ⟨none, none, none⟩ c9Data1 =
      generateContract (fun d => [d.children.length]) ⟨none, none, none⟩ c9Data2 :=
  c9_render_deterministic (fun d => [d.children.length]) ⟨none, none, none⟩
    c9Data1 c9Data2 rfl rfl rfl rfl rfl rfl rfl rfl rfl

/-! ## Claim C10. -/

/-- Claim C10 counterexample: with `API_KEY` set to the empty string and a
mismatched Authorization header, the handler does not return 401 — the
truthiness guard skips the check entirely and the request proceeds to
validation (here answered with the skipped response). -/
theorem c10_counterexample :
    c10Env.apiKey = some "" ∧
    (some "X" : Option String) ≠ some ("Bearer " ++ "") ∧
    (handler (fun _ => []) ⟨none, none, none⟩ c10Env c10World
        ⟨"POST", some "X", c10Body⟩).1 =
      .skipped "Incomplete submission - missing field: contract_type" :=
  ⟨rfl, by decide, rfl⟩

/-- Claim C10 (amended): on POST requests the handler returns 401 exactly
when `API_KEY` is set to a non-empty value and the Authorization header
differs from `Bearer <API_KEY>`; when `API_KEY` is unset (and likewise when
it is empty, by the truthiness guard) every POST request proceeds to
validation regardless of its Authorization header. -/
theorem c10_api_key_gate (pack : DocStruct → Buf) (assets : Assets)
    (env : Env) (w : World) (auth : Option String) (body : Body) :
    ((handler pack assets env w ⟨"POST", auth, body⟩).1 = .unauthorized ↔
      ∃ k, env.apiKey = some k ∧ k ≠ "" ∧ auth ≠ some ("Bearer " ++ k)) ∧
    (env.apiKey = none →
      handler pack assets env w ⟨"POST", auth, body⟩ =
        handlerMain pack assets env.todayISO w body) := by
  have hroute : handler pack assets env w ⟨"POST", auth, body⟩ =
      (if apiKeyRejects env.apiKey auth then (Resp.unauthorized, [])
       else handlerMain pack assets env.todayISO w body) := by
    simp [handler]
  constructor
  · rw [hroute, ← apiKeyRejects_iff]
    by_cases hr : apiKeyRejects env.apiKey auth
    · simp [hr]
    · simp [hr, handlerMain_ne_unauthorized pack assets env.todayISO w body]
  · intro hk
    rw [hroute]
    simp [apiKeyRejects, hk]

/-- Concrete run of the amended C10: with a non-empty key and a bad header
the response is 401; with no key configured the request proceeds. -/
theorem c10_witness :
    ((handler (fun _ => []) ⟨none, none, none⟩ { apiKey := some "secret", todayISO := "2025-06-01" }
        c10World ⟨"POST", some "X", c10Body⟩).1 = .unauthorized) ∧
    handler (fun _ => []) ⟨none, none, none⟩ { apiKey := none, todayISO := "2025-06-01" }
        c10World ⟨"POST", some "X", c10Body⟩ =
      handlerMain (fun _ => []) ⟨none, none, none⟩ "2025-06-01" c10World c10Body :=
  ⟨(c10_api_key_gate (fun _ => []) ⟨none, none, none⟩
      { apiKey := some "secret", todayISO := "2025-06-01" } c10World (some "X") c10Body).1.mpr
      ⟨"secret", rfl, by decide, by decide⟩,
   (c10_api_key_gate (fun _ => []) ⟨none, none, none⟩
      { apiKey := none, todayISO := "2025-06-01" } c10World (some "X") c10Body).2 rfl⟩

end Aeo

